import Mathlib

/-!
Shallow embedding of the background job-queue subsystem of the
go-echo-sample repository: the `job_queue` table (schema.sql /
pkg/database/database.go initSchema), the sqlc queries (queries.sql),
the `JobQueueService` methods (pkg/jobs, EnqueueJob / GetNextJob /
CompleteJob / FailJob), the worker dispatch loop (cmd/worker main.go,
Worker.processNextJob) and the fire-and-forget job enqueue inside
DatabaseService.CreateUser (pkg/database/database.go).

Modelling conventions:
- the table is a `List Job` in insertion (rowid) order; AUTOINCREMENT ids
  are `db.length + 1`;
- timestamps are `Nat` in minutes (the retry backoff unit of
  IncrementJobRetry); `CURRENT_TIMESTAMP` is an explicit `now` argument;
- nullable columns are `Option`; sqlc's `sql.NullTime Valid:false`
  arguments are `none` — an UPDATE with such an argument SETs the column
  to NULL, exactly as the generated SQL does;
- environmental effects (json.Marshal success, json.Unmarshal success,
  handler outcome, sqlite insert availability) are explicit parameters;
- each single SQL statement is atomic; the Go code composes statements
  without a transaction, which the race model below makes explicit.
-/

/-- Status column of job_queue: 'pending' | 'processing' | 'completed' | 'failed'. -/
inductive JobStatus
  | pending
  | processing
  | completed
  | failed
deriving DecidableEq, Repr

/-- A row of the job_queue table (schema in initSchema / schema.sql). -/
structure Job where
  id : Nat
  jobType : String
  payload : String
  status : JobStatus
  priority : Int
  maxRetries : Nat
  retryCount : Nat
  errorMessage : Option String
  scheduledAt : Nat
  startedAt : Option Nat
  completedAt : Option Nat
  createdAt : Nat
deriving DecidableEq, Repr

/-- WHERE clause of GetNextPendingJob (queries.sql):
status = 'pending' AND scheduled_at <= CURRENT_TIMESTAMP AND retry_count < max_retries. -/
def eligibleB (now : Nat) (j : Job) : Bool :=
  decide (j.status = .pending) && decide (j.scheduledAt ≤ now)
    && decide (j.retryCount < j.maxRetries)

/-- ORDER BY priority DESC, scheduled_at ASC: `betterB a b` holds when row `a`
ranks strictly before row `b` under that ordering. -/
def betterB (a b : Job) : Bool :=
  decide (b.priority < a.priority)
    || (decide (a.priority = b.priority) && decide (a.scheduledAt < b.scheduledAt))

/-- LIMIT 1 over the ordered rows: the first row of the list that no other
row strictly outranks (stable: on a full tie the earlier row wins). -/
def selectBest : List Job → Option Job
  | [] => none
  | j :: rest =>
    match selectBest rest with
    | none => some j
    | some b => if betterB b j then some b else some j

/-- GetNextPendingJob (queries.sql): SELECT * FROM job_queue WHERE eligible
ORDER BY priority DESC, scheduled_at ASC LIMIT 1. -/
def getNextPendingJob (db : List Job) (now : Nat) : Option Job :=
  selectBest (db.filter (eligibleB now))

/-- UpdateJobStatus (queries.sql): UPDATE job_queue SET status = ?,
started_at = ?, completed_at = ?, error_message = ? WHERE id = ?.
All four columns are SET to the bound values; a `none` argument writes NULL. -/
def updateJobStatus (db : List Job) (id : Nat) (status : JobStatus)
    (startedAt completedAt : Option Nat) (errMsg : Option String) : List Job :=
  db.map fun j =>
    if j.id = id then
      { j with status := status, startedAt := startedAt,
               completedAt := completedAt, errorMessage := errMsg }
    else j

/-- IncrementJobRetry (queries.sql): UPDATE job_queue SET
retry_count = retry_count + 1, status = 'pending',
scheduled_at = datetime(CURRENT_TIMESTAMP, (retry_count + 1) * 5 minutes),
error_message = ? WHERE id = ?.  Every right-hand side reads the
pre-update row, so the backoff uses the retry count before the increment. -/
def incrementJobRetry (db : List Job) (id : Nat) (errMsg : String) (now : Nat) : List Job :=
  db.map fun j =>
    if j.id = id then
      { j with retryCount := j.retryCount + 1, status := .pending,
               scheduledAt := now + (j.retryCount + 1) * 5,
               errorMessage := some errMsg }
    else j

/-- CreateJob (queries.sql): INSERT INTO job_queue (job_type, payload,
priority, max_retries, scheduled_at) VALUES (...) RETURNING *.  The omitted
columns take their schema defaults: status 'pending', retry_count 0,
created_at CURRENT_TIMESTAMP; the id is the next AUTOINCREMENT value. -/
def createJob (db : List Job) (jobType payload : String) (priority : Int)
    (maxRetries : Nat) (scheduledAt now : Nat) : List Job × Job :=
  let job : Job :=
    { id := db.length + 1, jobType := jobType, payload := payload,
      status := .pending, priority := priority, maxRetries := maxRetries,
      retryCount := 0, errorMessage := none, scheduledAt := scheduledAt,
      startedAt := none, completedAt := none, createdAt := now }
  (db ++ [job], job)

/-- Error results of JobQueueService.EnqueueJob: the marshal branch wraps a
serialization failure, the CreateJob branch wraps a store failure. -/
inductive EnqueueError
  | serialization (msg : String)
  | store (msg : String)
deriving DecidableEq, Repr

/-- JobQueueService.EnqueueJob (pkg/jobs): json.Marshal the payload (failure
is returned as a serialization error), then CreateJob with the hard-coded
MaxRetries 3 and ScheduledAt time.Now().  `marshalResult` is the outcome of
json.Marshal and `storeOk` the availability of the sqlite insert. -/
def enqueueJob (db : List Job) (jobType : String) (marshalResult : Except String String)
    (storeOk : Bool) (priority : Int) (now : Nat) : Except EnqueueError (List Job × Job) :=
  match marshalResult with
  | .error e => .error (.serialization ("failed to marshal payload: " ++ e))
  | .ok payloadJSON =>
    if storeOk then
      .ok (createJob db jobType payloadJSON priority 3 now now)
    else
      .error (.store "failed to create job")

/-- JobQueueService.GetNextJob (pkg/jobs): GetNextPendingJob, then a second,
separate UpdateJobStatus marking the row processing with started_at = now,
completed_at = NULL, error_message = NULL; the returned struct is the
SELECTed row with only its Status field overwritten in memory. -/
def getNextJob (db : List Job) (now : Nat) : Option Job × List Job :=
  match getNextPendingJob db now with
  | none => (none, db)
  | some j =>
    (some { j with status := .processing },
     updateJobStatus db j.id .processing (some now) none none)

/-- JobQueueService.CompleteJob (pkg/jobs): UpdateJobStatus to 'completed'
with StartedAt Valid:false (NULL), CompletedAt now, ErrorMessage NULL. -/
def completeJob (db : List Job) (id : Nat) (now : Nat) : List Job :=
  updateJobStatus db id .completed none (some now) none

/-- JobQueueService.FailJob (pkg/jobs): with retry, IncrementJobRetry;
without retry, UpdateJobStatus to 'failed' with CompletedAt now and the
error message (StartedAt is passed Valid:false, i.e. NULL). -/
def failJob (db : List Job) (id : Nat) (msg : String) (retry : Bool) (now : Nat) : List Job :=
  if retry then incrementJobRetry db id msg now
  else updateJobStatus db id .failed none (some now) (some msg)

/-- Body of the goroutine in Worker.processNextJob (cmd/worker main.go) for a
claimed job snapshot: json.Unmarshal failure FailJob(retry=false); no
registered processor for the job type FailJob(retry=false); handler error
FailJob(retry = snapshot retry_count < snapshot max_retries); handler
success CompleteJob. -/
def dispatchJob (db : List Job) (job : Job) (parseOk : Bool) (registered : List String)
    (handlerResult : Except String Unit) (now : Nat) : List Job :=
  if !parseOk then
    failJob db job.id "Failed to parse payload" false now
  else if !(registered.contains job.jobType) then
    failJob db job.id ("No processor for job type: " ++ job.jobType) false now
  else
    match handlerResult with
    | .error e => failJob db job.id e (decide (job.retryCount < job.maxRetries)) now
    | .ok _ => completeJob db job.id now

/-- Worker.processNextJob (cmd/worker main.go): GetNextJob at `claimAt`; if a
job was claimed, dispatch it, reporting the outcome at `doneAt`. -/
def processNextJob (db : List Job) (parseOk : Bool) (registered : List String)
    (handlerResult : Except String Unit) (claimAt doneAt : Nat) : List Job :=
  match getNextJob db claimAt with
  | (none, db') => db'
  | (some job, db') => dispatchJob db' job parseOk registered handlerResult doneAt

/-- A row of the users table (the fields CreateUser's enqueue depends on). -/
structure User where
  id : Nat
  email : String
deriving DecidableEq, Repr

/-- The two tables DatabaseService touches. -/
structure AppDB where
  users : List User
  jobs : List Job
deriving DecidableEq, Repr

/-- DatabaseService.CreateUser (pkg/database): INSERT the user (the UNIQUE
email constraint is the modelled failure), then EnqueueJob(user_created,
payload, priority 1); an enqueue error is only logged and the created user
is returned regardless. -/
def createUser (db : AppDB) (email : String) (marshalResult : Except String String)
    (storeOk : Bool) (now : Nat) : Except String (User × AppDB) :=
  if db.users.any (fun u => u.email == email) then
    .error "failed to create user: UNIQUE constraint failed"
  else
    let user : User := { id := db.users.length + 1, email := email }
    let users' := db.users ++ [user]
    match enqueueJob db.jobs "user_created" marshalResult storeOk 1 now with
    | .ok (jobs', _) => .ok (user, { users := users', jobs := jobs' })
    | .error _ => .ok (user, { users := users', jobs := db.jobs })

/-- Pc phases of one in-flight GetNextJob call: before the SELECT, between
the SELECT and the UPDATE (holding the selected row), and returned. -/
inductive ClaimPhase
  | ready
  | selected (j : Job)
  | finished (r : Option Job)
deriving DecidableEq, Repr

/-- One atomic SQL statement of GetNextJob: the SELECT (GetNextPendingJob)
or the UPDATE (UpdateJobStatus to processing).  The Go method runs the two
statements without a transaction, so other callers interleave between them. -/
def claimStep (now : Nat) : ClaimPhase → List Job → ClaimPhase × List Job
  | .ready, db =>
    match getNextPendingJob db now with
    | none => (.finished none, db)
    | some j => (.selected j, db)
  | .selected j, db =>
    (.finished (some { j with status := .processing }),
     updateJobStatus db j.id .processing (some now) none none)
  | .finished r, db => (.finished r, db)

/-- Two workers each running one GetNextJob call against the shared table. -/
structure RaceState where
  w1 : ClaimPhase
  w2 : ClaimPhase
  jobs : List Job
deriving DecidableEq, Repr

/-- Run one atomic statement of the scheduled worker (true = worker 1). -/
def raceStep (now : Nat) (s : RaceState) (turn : Bool) : RaceState :=
  if turn then
    let (p, db) := claimStep now s.w1 s.jobs
    { s with w1 := p, jobs := db }
  else
    let (p, db) := claimStep now s.w2 s.jobs
    { s with w2 := p, jobs := db }

/-- Execute an interleaving of the two workers' statements. -/
def runRace (now : Nat) (sched : List Bool) (s : RaceState) : RaceState :=
  sched.foldl (raceStep now) s

/-- A single eligible pending job, the shared row of the duplicate-claim race. -/
def raceJob : Job :=
  { id := 1, jobType := "email_notification", payload := "p", status := .pending,
    priority := 0, maxRetries := 3, retryCount := 0, errorMessage := none,
    scheduledAt := 0, startedAt := none, completedAt := none, createdAt := 0 }

/-- An eligible job of priority 1 (oldest), for exercising the claim ordering. -/
def jA : Job :=
  { id := 1, jobType := "data_analysis", payload := "p", status := .pending,
    priority := 1, maxRetries := 3, retryCount := 0, errorMessage := none,
    scheduledAt := 0, startedAt := none, completedAt := none, createdAt := 0 }

/-- An eligible job of priority 5, for exercising the claim ordering. -/
def jB : Job :=
  { id := 2, jobType := "email_notification", payload := "p", status := .pending,
    priority := 5, maxRetries := 3, retryCount := 0, errorMessage := none,
    scheduledAt := 3, startedAt := none, completedAt := none, createdAt := 3 }

/-- A pending job that has already failed twice: retry_count 2 of max_retries 3. -/
def c3job : Job :=
  { id := 1, jobType := "email_notification", payload := "p", status := .pending,
    priority := 0, maxRetries := 3, retryCount := 2, errorMessage := none,
    scheduledAt := 0, startedAt := none, completedAt := none, createdAt := 0 }

/-- The row produced from c3job by a claim at time 100 followed by a failing
handler at time 100: back to pending with retry_count 3 and backoff 15. -/
def c3result : Job :=
  { id := 1, jobType := "email_notification", payload := "p", status := .pending,
    priority := 0, maxRetries := 3, retryCount := 3,
    errorMessage := some "handler error", scheduledAt := 115,
    startedAt := some 100, completedAt := none, createdAt := 0 }

/-- A job already in the terminal Completed state. -/
def doneJob : Job :=
  { id := 1, jobType := "email_notification", payload := "p", status := .completed,
    priority := 0, maxRetries := 3, retryCount := 0, errorMessage := none,
    scheduledAt := 0, startedAt := some 10, completedAt := some 50, createdAt := 0 }

/-- An eligible pending job sharing the table with doneJob. -/
def pendJob : Job :=
  { id := 2, jobType := "email_notification", payload := "p", status := .pending,
    priority := 0, maxRetries := 3, retryCount := 0, errorMessage := none,
    scheduledAt := 0, startedAt := none, completedAt := none, createdAt := 0 }

/-- A pending job with one failure recorded, for the backoff witness. -/
def j5 : Job :=
  { id := 1, jobType := "data_export", payload := "p", status := .pending,
    priority := 0, maxRetries := 3, retryCount := 1, errorMessage := none,
    scheduledAt := 60, startedAt := none, completedAt := none, createdAt := 0 }

/-- A claimed job of an unregistered type with retries already exhausted. -/
def j7 : Job :=
  { id := 2, jobType := "mystery_type", payload := "p", status := .processing,
    priority := 0, maxRetries := 3, retryCount := 3, errorMessage := none,
    scheduledAt := 0, startedAt := some 20, completedAt := none, createdAt := 0 }

/-- The job CreateJob returns for an insert into an empty table at time 7
with payload "p", priority 2 and the fixed max_retries 3. -/
def c8job : Job :=
  { id := 1, jobType := "email_notification", payload := "p", status := .pending,
    priority := 2, maxRetries := 3, retryCount := 0, errorMessage := none,
    scheduledAt := 7, startedAt := none, completedAt := none, createdAt := 7 }

/-- A claimed job of an unregistered type, for the dispatch-time detection. -/
def j10 : Job :=
  { id := 1, jobType := "not_registered", payload := "p", status := .processing,
    priority := 0, maxRetries := 3, retryCount := 0, errorMessage := none,
    scheduledAt := 0, startedAt := some 5, completedAt := none, createdAt := 0 }

/-- A Processing job whose started_at was set at claim time (minute 50). -/
def c6job : Job :=
  { id := 1, jobType := "email_notification", payload := "p", status := .processing,
    priority := 0, maxRetries := 3, retryCount := 0, errorMessage := none,
    scheduledAt := 0, startedAt := some 50, completedAt := none, createdAt := 0 }

/-- Lemmas about the claim ordering and selection, then the claim theorems. -/

theorem betterB_irrefl (a : Job) : betterB a a = false := by
  simp [betterB]

theorem betterB_asymm {a b : Job} (h : betterB a b = true) : betterB b a = false := by
  simp only [betterB, Bool.or_eq_true, Bool.and_eq_true, decide_eq_true_eq,
    Bool.or_eq_false_iff, Bool.and_eq_false_iff, decide_eq_false_iff_not] at h ⊢
  omega

theorem betterB_neg_trans {a b c : Job} (h1 : betterB a b = false)
    (h2 : betterB b c = false) : betterB a c = false := by
  simp only [betterB, Bool.or_eq_true, Bool.and_eq_true, decide_eq_true_eq,
    Bool.or_eq_false_iff, Bool.and_eq_false_iff, decide_eq_false_iff_not] at h1 h2 ⊢
  omega

theorem selectBest_cons (j : Job) (rest : List Job) :
    selectBest (j :: rest) =
      match selectBest rest with
      | none => some j
      | some b => if betterB b j then some b else some j := rfl

theorem selectBest_eq_none_iff (l : List Job) : selectBest l = none ↔ l = [] := by
  cases l with
  | nil => simp [selectBest]
  | cons j rest =>
    rw [selectBest_cons]
    cases hr : selectBest rest with
    | none => simp
    | some b =>
      by_cases hb : betterB b j = true <;> simp [hb]

theorem selectBest_mem : ∀ (l : List Job) (m : Job), selectBest l = some m → m ∈ l := by
  intro l
  induction l with
  | nil => intro m h; simp [selectBest] at h
  | cons j rest ih =>
    intro m h
    rw [selectBest_cons] at h
    cases hr : selectBest rest with
    | none =>
      rw [hr] at h
      simp only [Option.some.injEq] at h
      simp [h]
    | some b =>
      rw [hr] at h
      by_cases hb : betterB b j = true
      · simp only [hb, if_true, Option.some.injEq] at h
        exact h ▸ List.mem_cons_of_mem _ (ih b hr)
      · simp only [hb, Bool.false_eq_true, if_false, Option.some.injEq] at h
        simp [h]

theorem selectBest_not_better : ∀ (l : List Job) (m : Job), selectBest l = some m →
    ∀ k ∈ l, betterB k m = false := by
  intro l
  induction l with
  | nil => intro m h; simp [selectBest] at h
  | cons j rest ih =>
    intro m h k hk
    rw [selectBest_cons] at h
    cases hr : selectBest rest with
    | none =>
      rw [hr] at h
      simp only [Option.some.injEq] at h
      have hrest : rest = [] := (selectBest_eq_none_iff rest).mp hr
      subst hrest
      simp only [List.mem_singleton] at hk
      subst hk; subst h
      exact betterB_irrefl k
    | some b =>
      rw [hr] at h
      rcases List.mem_cons.mp hk with hkj | hkr
      · subst hkj
        by_cases hb : betterB b k = true
        · simp only [hb, if_true, Option.some.injEq] at h
          subst h
          exact betterB_asymm hb
        · simp only [hb, Bool.false_eq_true, if_false, Option.some.injEq] at h
          subst h
          exact betterB_irrefl k
      · have hkb : betterB k b = false := ih b hr k hkr
        by_cases hb : betterB b j = true
        · simp only [hb, if_true, Option.some.injEq] at h
          subst h
          exact hkb
        · simp only [hb, Bool.false_eq_true, if_false, Option.some.injEq] at h
          subst h
          exact betterB_neg_trans hkb (Bool.eq_false_iff.mpr hb)

theorem getNextPendingJob_eq_none_iff (db : List Job) (now : Nat) :
    getNextPendingJob db now = none ↔ ∀ j ∈ db, eligibleB now j = false := by
  unfold getNextPendingJob
  rw [selectBest_eq_none_iff, List.filter_eq_nil_iff]
  constructor <;> intro h j hj <;> simpa using h j hj

theorem getNextPendingJob_best (db : List Job) (now : Nat) (w : Job)
    (h : getNextPendingJob db now = some w) :
    w ∈ db ∧ eligibleB now w = true ∧
      ∀ j ∈ db, eligibleB now j = true →
        j.priority ≤ w.priority ∧ (j.priority = w.priority → w.scheduledAt ≤ j.scheduledAt) := by
  unfold getNextPendingJob at h
  have hw := selectBest_mem _ _ h
  have hmem := (List.mem_filter.mp hw).1
  have hel := (List.mem_filter.mp hw).2
  refine ⟨hmem, hel, ?_⟩
  intro j hj hje
  have hjf : j ∈ db.filter (eligibleB now) := List.mem_filter.mpr ⟨hj, hje⟩
  have hnb := selectBest_not_better _ _ h j hjf
  simp only [betterB, Bool.or_eq_false_iff, Bool.and_eq_false_iff,
    decide_eq_false_iff_not] at hnb
  omega

theorem failJob_noretry_mem (db : List Job) (id : Nat) (msg : String) (now : Nat)
    (j : Job) (hmem : j ∈ db) (hid : j.id = id) :
    { j with status := JobStatus.failed, startedAt := none,
             completedAt := some now, errorMessage := some msg }
      ∈ failJob db id msg false now := by
  unfold failJob updateJobStatus
  rw [if_neg Bool.false_ne_true]
  exact List.mem_map.mpr ⟨j, hmem, by rw [if_pos hid]⟩

/-- C2: whenever at least one job is eligible (status Pending,
scheduled_at <= now, retry_count < max_retries), GetNextJob returns an
eligible job with the highest priority, ties broken by the smallest
(oldest) scheduled_at; when no job is eligible it returns none. -/
theorem getNextJob_selects_best (db : List Job) (now : Nat) :
    ((getNextJob db now).1 = none ↔ ∀ j ∈ db, eligibleB now j = false) ∧
    (∀ r, (getNextJob db now).1 = some r →
      ∃ w, w ∈ db ∧ eligibleB now w = true ∧ r = { w with status := JobStatus.processing } ∧
        ∀ j ∈ db, eligibleB now j = true →
          j.priority ≤ w.priority ∧ (j.priority = w.priority → w.scheduledAt ≤ j.scheduledAt)) := by
  unfold getNextJob
  cases hsel : getNextPendingJob db now with
  | none =>
    refine ⟨?_, ?_⟩
    · simpa using (getNextPendingJob_eq_none_iff db now).mp hsel
    · intro r hr
      simp at hr
  | some w =>
    have hb := getNextPendingJob_best db now w hsel
    refine ⟨?_, ?_⟩
    · constructor
      · intro h; simp at h
      · intro hall
        have h1 := hall w hb.1
        have h2 := hb.2.1
        rw [h1] at h2
        exact absurd h2 Bool.false_ne_true
    · intro r hr
      simp only [Option.some.injEq] at hr
      exact ⟨w, hb.1, hb.2.1, hr.symm, hb.2.2⟩

/-- Witness for C2: on a table holding jA (priority 1) and jB (priority 5),
both eligible at time 10, GetNextJob claims the priority-5 job jB and it
dominates every eligible row of the table. -/
theorem getNextJob_selects_best_witness :
    ∃ w, w ∈ [jA, jB] ∧ eligibleB 10 w = true ∧
      ({ jB with status := JobStatus.processing } : Job) =
        { w with status := JobStatus.processing } ∧
      ∀ j ∈ [jA, jB], eligibleB 10 j = true →
        j.priority ≤ w.priority ∧ (j.priority = w.priority → w.scheduledAt ≤ j.scheduledAt) :=
  (getNextJob_selects_best [jA, jB] 10).2 { jB with status := JobStatus.processing } (by decide)

/-- C1: the claim operation is not atomic.  GetNextJob runs its SELECT and
its UPDATE as two separate statements with no transaction or row lock, so
in the interleaving SELECT1, SELECT2, UPDATE1, UPDATE2 over a table with a
single eligible job, both concurrent GetNextJob callers return that same
job — the at-most-one-claimant requirement fails on the code. -/
theorem concurrent_claims_return_same_job :
    (runRace 10 [true, false, true, false]
        { w1 := .ready, w2 := .ready, jobs := [raceJob] }).w1 =
      ClaimPhase.finished (some { raceJob with status := JobStatus.processing }) ∧
    (runRace 10 [true, false, true, false]
        { w1 := .ready, w2 := .ready, jobs := [raceJob] }).w2 =
      ClaimPhase.finished (some { raceJob with status := JobStatus.processing }) := by
  decide

/-- C3: the 3rd handler failure of a job with max_retries 3 (claimed with
retry_count 2) does NOT reach terminal Failed: the worker computes
shouldRetry = 2 < 3 = true, so the job goes back to Pending with
retry_count 3, a fresh scheduled_at (claim time 100 + 15) is assigned, and
the row is never eligible for a claim again (3 < 3 fails) — it is stuck
Pending forever instead of Failed, contradicting the spec's Scenario B and
the repository's own design document. -/
theorem third_failure_returns_to_pending :
    processNextJob [c3job] true ["email_notification"] (.error "handler error") 100 100 =
      [c3result] ∧
    c3result.status = JobStatus.pending ∧ c3result.retryCount = 3 ∧
    c3result.scheduledAt = 115 ∧ (∀ t, eligibleB t c3result = false) := by
  refine ⟨by decide, rfl, rfl, rfl, ?_⟩
  intro t
  simp [eligibleB, c3result]

/-- C4 counterexample: CompleteJob and FailJob update the row by id with no
status guard, so a FailJob call on the already-Completed doneJob changes
its status to failed — terminal states are not immutable under those calls. -/
theorem failJob_overwrites_completed :
    doneJob.status = JobStatus.completed ∧
    (failJob [doneJob] 1 "late failure" false 60).map Job.status = [JobStatus.failed] := by
  decide

/-- C4 (amended): a Completed or Failed job is never returned nor modified
by GetNextJob — the claim query selects only eligible Pending rows — but
terminal immutability does not extend to CompleteJob/FailJob, which update
unconditionally by id (see the counterexample). -/
theorem getNextJob_preserves_terminal (db : List Job) (now : Nat) (j : Job)
    (hmem : j ∈ db) (hterm : j.status = JobStatus.completed ∨ j.status = JobStatus.failed)
    (hids : (db.map Job.id).Nodup) :
    (∀ r, (getNextJob db now).1 = some r → r.id ≠ j.id) ∧ j ∈ (getNextJob db now).2 := by
  unfold getNextJob
  cases hsel : getNextPendingJob db now with
  | none =>
    refine ⟨?_, ?_⟩
    · intro r hr; simp at hr
    · simpa using hmem
  | some w =>
    have hb := getNextPendingJob_best db now w hsel
    have hwp : w.status = JobStatus.pending := by
      have he := hb.2.1
      simp only [eligibleB, Bool.and_eq_true, decide_eq_true_eq] at he
      exact he.1.1
    have hwj : w ≠ j := by
      intro heq; subst heq
      rcases hterm with h | h <;> rw [hwp] at h <;> cases h
    have hwid : w.id ≠ j.id := by
      intro heq
      exact hwj (List.inj_on_of_nodup_map hids hb.1 hmem heq)
    refine ⟨?_, ?_⟩
    · intro r hr
      simp only [Option.some.injEq] at hr
      rw [← hr]
      exact hwid
    · show j ∈ updateJobStatus db w.id .processing (some now) none none
      unfold updateJobStatus
      exact List.mem_map.mpr ⟨j, hmem, by rw [if_neg (Ne.symm hwid)]⟩

/-- Witness for C4 (amended): on a table with the completed doneJob and the
eligible pendJob, GetNextJob claims a row with a different id and leaves
doneJob in the table untouched. -/
theorem getNextJob_preserves_terminal_witness :
    (∀ r, (getNextJob [doneJob, pendJob] 40).1 = some r → r.id ≠ doneJob.id) ∧
    doneJob ∈ (getNextJob [doneJob, pendJob] 40).2 :=
  getNextJob_preserves_terminal [doneJob, pendJob] 40 doneJob (by decide)
    (Or.inl rfl) (by decide)

/-- C5: FailJob with retry runs IncrementJobRetry, whose UPDATE reads the
pre-update retry_count in every right-hand side: the row re-enters Pending
with retry_count incremented by exactly 1 and
scheduled_at = failure time + (old retry_count + 1) * 5 minutes
(5, 10, 15 minutes after the 1st, 2nd, 3rd failure — arithmetic backoff). -/
theorem failJob_retry_backoff (db : List Job) (id : Nat) (msg : String) (now : Nat)
    (j : Job) (hmem : j ∈ db) (hid : j.id = id) :
    { j with retryCount := j.retryCount + 1, status := JobStatus.pending,
             scheduledAt := now + (j.retryCount + 1) * 5,
             errorMessage := some msg } ∈ failJob db id msg true now := by
  unfold failJob incrementJobRetry
  rw [if_pos rfl]
  exact List.mem_map.mpr ⟨j, hmem, by rw [if_pos hid]⟩

/-- Witness for C5: failing j5 (already one failure recorded) with retry at
time 200 puts it back in the table as Pending with retry_count 2 and
scheduled_at 200 + 10. -/
theorem failJob_retry_backoff_witness :
    { j5 with retryCount := j5.retryCount + 1, status := JobStatus.pending,
              scheduledAt := 200 + (j5.retryCount + 1) * 5,
              errorMessage := some "net timeout" }
      ∈ failJob [j5] 1 "net timeout" true 200 :=
  failJob_retry_backoff [j5] 1 "net timeout" 200 j5 (List.mem_singleton.mpr rfl) rfl

/-- C6: CompleteJob does not keep started_at.  The Go code passes
sql.NullTime Valid:false intending to keep the existing value (its own
comment says so), but UpdateJobStatus's SET started_at = ? writes NULL:
completing the Processing job c6job (started_at = 50) erases started_at. -/
theorem completeJob_nulls_started_at :
    c6job.startedAt = some 50 ∧
    completeJob [c6job] 1 90 =
      [{ c6job with status := JobStatus.completed, startedAt := none,
                    completedAt := some 90, errorMessage := none }] := by
  decide

/-- C7: a claimed job whose payload fails to deserialize, or whose type has
no registered processor, is failed with retry=false: regardless of
retry_count and max_retries the row becomes Failed directly and its
retry_count is unchanged. -/
theorem nonretryable_failure (db : List Job) (job : Job) (registered : List String)
    (parseOk : Bool) (handlerResult : Except String Unit) (now : Nat) (j : Job)
    (hmem : j ∈ db) (hid : j.id = job.id)
    (hbad : parseOk = false ∨ registered.contains job.jobType = false) :
    ∃ j', j' ∈ dispatchJob db job parseOk registered handlerResult now ∧
      j'.id = j.id ∧ j'.status = JobStatus.failed ∧ j'.retryCount = j.retryCount := by
  rcases hbad with hp | hreg
  · subst hp
    refine ⟨{ j with status := JobStatus.failed, startedAt := none, completedAt := some now, errorMessage := some "Failed to parse payload" }, ?_, rfl, rfl, rfl⟩
    have hd : dispatchJob db job false registered handlerResult now =
        failJob db job.id "Failed to parse payload" false now := by
      unfold dispatchJob; rfl
    rw [hd]
    exact failJob_noretry_mem db job.id _ now j hmem hid
  · cases parseOk with
    | false =>
      refine ⟨{ j with status := JobStatus.failed, startedAt := none, completedAt := some now, errorMessage := some "Failed to parse payload" }, ?_, rfl, rfl, rfl⟩
      have hd : dispatchJob db job false registered handlerResult now =
          failJob db job.id "Failed to parse payload" false now := by
        unfold dispatchJob; rfl
      rw [hd]
      exact failJob_noretry_mem db job.id _ now j hmem hid
    | true =>
      refine ⟨{ j with status := JobStatus.failed, startedAt := none, completedAt := some now, errorMessage := some ("No processor for job type: " ++ job.jobType) }, ?_, rfl, rfl, rfl⟩
      have hd : dispatchJob db job true registered handlerResult now =
          failJob db job.id ("No processor for job type: " ++ job.jobType) false now := by
        unfold dispatchJob
        simp only [Bool.not_true, Bool.false_eq_true, if_false, hreg, Bool.not_false,
          eq_self_iff_true, if_true]
      rw [hd]
      exact failJob_noretry_mem db job.id _ now j hmem hid

/-- Witness for C7: the claimed job j7 has an unregistered type and its
retries already exhausted (retry_count 3 = max_retries 3); dispatch at time
30 puts a Failed row with the unchanged retry_count in the table. -/
theorem nonretryable_failure_witness :
    ∃ j', j' ∈ dispatchJob [j7] j7 true ["user_created"] (.ok ()) 30 ∧
      j'.id = j7.id ∧ j'.status = JobStatus.failed ∧ j'.retryCount = j7.retryCount :=
  nonretryable_failure [j7] j7 ["user_created"] true (.ok ()) 30 j7
    (List.mem_singleton.mpr rfl) rfl (Or.inr (by decide))

/-- C8: EnqueueJob fails with a serialization error exactly when the payload
cannot be marshalled, and every successfully created job has status Pending,
the hard-coded max_retries 3, retry_count 0 and scheduled_at = now. -/
theorem enqueueJob_policy (db : List Job) (jobType : String)
    (marshalResult : Except String String) (storeOk : Bool) (priority : Int) (now : Nat) :
    ((∃ m, enqueueJob db jobType marshalResult storeOk priority now =
        .error (.serialization m)) ↔ ∃ e, marshalResult = .error e) ∧
    (∀ db' job, enqueueJob db jobType marshalResult storeOk priority now = .ok (db', job) →
      job.status = JobStatus.pending ∧ job.maxRetries = 3 ∧ job.retryCount = 0 ∧
      job.scheduledAt = now) := by
  cases marshalResult with
  | error e =>
    refine ⟨⟨fun _ => ⟨e, rfl⟩, fun _ => ⟨_, rfl⟩⟩, ?_⟩
    intro db' job h
    simp [enqueueJob] at h
  | ok s =>
    cases storeOk with
    | false =>
      refine ⟨⟨?_, ?_⟩, ?_⟩
      · rintro ⟨m, hm⟩
        simp [enqueueJob] at hm
      · rintro ⟨e, he⟩
        cases he
      · intro db' job h
        simp [enqueueJob] at h
    | true =>
      refine ⟨⟨?_, ?_⟩, ?_⟩
      · rintro ⟨m, hm⟩
        simp [enqueueJob] at hm
      · rintro ⟨e, he⟩
        cases he
      · intro db' job h
        simp only [enqueueJob, createJob, eq_self_iff_true, if_true, Except.ok.injEq,
          Prod.mk.injEq] at h
        obtain ⟨h1, h2⟩ := h
        subst h2
        exact ⟨rfl, rfl, rfl, rfl⟩

/-- Witness for C8: enqueueing into an empty table with payload "p",
priority 2 at time 7 creates exactly c8job: Pending, max_retries 3,
retry_count 0, scheduled_at 7. -/
theorem enqueueJob_policy_witness :
    c8job.status = JobStatus.pending ∧ c8job.maxRetries = 3 ∧ c8job.retryCount = 0 ∧
    c8job.scheduledAt = 7 :=
  (enqueueJob_policy [] "email_notification" (.ok "p") true 2 7).2 [c8job] c8job rfl

/-- C9: CreateUser enqueues its user_created job fire-and-forget: when the
user INSERT succeeds and the subsequent EnqueueJob fails, the error is only
logged — CreateUser still returns the created user without error and the
job table is left as it was. -/
theorem createUser_fire_and_forget (db : AppDB) (email : String)
    (marshalResult : Except String String) (storeOk : Bool) (now : Nat) (e : EnqueueError)
    (hinsert : db.users.any (fun u => u.email == email) = false)
    (henq : enqueueJob db.jobs "user_created" marshalResult storeOk 1 now = .error e) :
    createUser db email marshalResult storeOk now =
      .ok ({ id := db.users.length + 1, email := email },
           { users := db.users ++ [{ id := db.users.length + 1, email := email }],
             jobs := db.jobs }) := by
  unfold createUser
  simp [hinsert, henq]

/-- Witness for C9: creating a user in an empty database while the job
payload cannot be marshalled still returns the created user, with the job
table untouched. -/
theorem createUser_fire_and_forget_witness :
    createUser { users := [], jobs := [] } "a@example.com" (.error "unsupported type") true 9 =
      .ok ({ id := 1, email := "a@example.com" },
           { users := [{ id := 1, email := "a@example.com" }], jobs := [] }) :=
  createUser_fire_and_forget { users := [], jobs := [] } "a@example.com"
    (.error "unsupported type") true 9
    (.serialization ("failed to marshal payload: " ++ "unsupported type")) rfl rfl

/-- C10: EnqueueJob never validates the job-type tag: for every string job
type its success depends only on payload serialization and store
availability; and when the type has no registered processor, the problem is
detected only at worker dispatch, where the claimed row becomes Failed with
retry_count unchanged (a permanent failure). -/
theorem enqueue_skips_type_validation (registered : List String) (db db2 : List Job)
    (jobType : String) (marshalResult : Except String String) (storeOk : Bool)
    (priority : Int) (now now2 : Nat) (job j : Job) (handlerResult : Except String Unit)
    (hjt : job.jobType = jobType) (hreg : registered.contains jobType = false)
    (hmem : j ∈ db2) (hid : j.id = job.id) :
    ((∃ r, enqueueJob db jobType marshalResult storeOk priority now = .ok r) ↔
      (∃ s, marshalResult = .ok s) ∧ storeOk = true) ∧
    (∃ j', j' ∈ dispatchJob db2 job true registered handlerResult now2 ∧
      j'.id = j.id ∧ j'.status = JobStatus.failed ∧ j'.retryCount = j.retryCount) := by
  constructor
  · cases marshalResult with
    | error e =>
      constructor
      · rintro ⟨r, hr⟩
        simp [enqueueJob] at hr
      · rintro ⟨⟨s, hs⟩, -⟩
        cases hs
    | ok s =>
      cases storeOk with
      | false =>
        constructor
        · rintro ⟨r, hr⟩
          simp [enqueueJob] at hr
        · rintro ⟨-, h⟩
          cases h
      | true =>
        constructor
        · intro _
          exact ⟨⟨s, rfl⟩, rfl⟩
        · intro _
          exact ⟨_, rfl⟩
  · refine ⟨{ j with status := JobStatus.failed, startedAt := none, completedAt := some now2, errorMessage := some ("No processor for job type: " ++ job.jobType) }, ?_, rfl, rfl, rfl⟩
    have hc : registered.contains job.jobType = false := by rw [hjt]; exact hreg
    have hd : dispatchJob db2 job true registered handlerResult now2 =
        failJob db2 job.id ("No processor for job type: " ++ job.jobType) false now2 := by
      unfold dispatchJob
      simp only [Bool.not_true, Bool.false_eq_true, if_false, hc, Bool.not_false,
        eq_self_iff_true, if_true]
    rw [hd]
    exact failJob_noretry_mem db2 job.id _ now2 j hmem hid

/-- Witness for C10: the type "not_registered" is absent from the processor
registry, yet enqueue of such a job succeeds whenever the payload
marshals; once the claimed job j10 reaches dispatch it is failed
permanently with retry_count unchanged. -/
theorem enqueue_skips_type_validation_witness :
    ((∃ r, enqueueJob [] "not_registered" (.ok "p") true 0 4 = .ok r) ↔
      (∃ s, (Except.ok "p" : Except String String) = .ok s) ∧ true = true) ∧
    (∃ j', j' ∈ dispatchJob [j10] j10 true
        ["user_created", "data_analysis", "email_notification"] (.ok ()) 6 ∧
      j'.id = j10.id ∧ j'.status = JobStatus.failed ∧ j'.retryCount = j10.retryCount) :=
  enqueue_skips_type_validation ["user_created", "data_analysis", "email_notification"]
    [] [j10] "not_registered" (.ok "p") true 0 4 6 j10 j10 (.ok ()) rfl (by decide)
    (List.mem_singleton.mpr rfl) rfl
